import Mathlib

/-!
Shallow embedding of the live-poll backend (src/server.js): the poll data
model, the results aggregator, the socket event handlers as pure state
transformers, and a reachability relation over server states.
-/

/-- One option of a poll: `{ id: idx.toString(), text: t, votes: 0 }`
(server.js line 24), with `votes` mutated by the vote handler. -/
structure PollOption where
  id : String
  text : String
  votes : Nat
deriving Repr, DecidableEq

/-- The in-memory poll record built by `createPoll` (server.js lines 22-34).
The JS `Set` of submissions is modelled as a list to which an identifier is
added only when not already present, so its length is the set's size. -/
structure Poll where
  id : String
  question : String
  options : List PollOption
  startedAt : Nat
  duration : Nat
  active : Bool
  submissions : List String
deriving Repr, DecidableEq

/-- `createPoll(payload)` (server.js lines 22-34): options get ordinal string
ids and zero votes; `payload.duration || 60` treats a missing or zero
duration as 60 (JS falsiness). The fresh uuid and `Date.now()` are passed in
as parameters `freshId` and `now`. -/
def createPoll (question : String) (optionTexts : List String)
    (duration : Option Nat) (freshId : String) (now : Nat) : Poll :=
  { id := freshId
    question := question
    options := optionTexts.enum.map (fun p => ⟨toString p.1, p.2, 0⟩)
    startedAt := now
    duration := match duration with
      | none => 60
      | some 0 => 60
      | some d => d
    active := true
    submissions := [] }

/-- Sum of the vote counters, as in `poll.options.reduce((s,o) => s+o.votes, 0)`
(server.js line 37). -/
def sumVotes (options : List PollOption) : Nat :=
  (options.map (fun o => o.votes)).sum

/-- `Math.round(x)` for a non-negative quotient `num/den` with `den > 0`:
round half up, written on naturals as `⌊(2*num+den)/(2*den)⌋`. -/
def jsRound (num den : Nat) : Nat :=
  (2 * num + den) / (2 * den)

/-- An option inside a results snapshot (server.js line 41). -/
structure ResultOption where
  id : String
  text : String
  votes : Nat
  pct : Nat
deriving Repr, DecidableEq

/-- The results snapshot returned by `computeResults` (server.js lines 36-44). -/
structure Results where
  id : String
  question : String
  options : List ResultOption
  total : Nat
deriving Repr, DecidableEq

/-- `computeResults(poll)` (server.js lines 36-44): total is the sum of the
vote counters; each option's `pct` is 0 when the total is 0 and
`Math.round((votes/total)*100)` otherwise. -/
def computeResults (poll : Poll) : Results :=
  let total := sumVotes poll.options
  { id := poll.id
    question := poll.question
    options := poll.options.map (fun o =>
      ⟨o.id, o.text, o.votes, if total = 0 then 0 else jsRound (o.votes * 100) total⟩)
    total := total }

/-- The mutable module-level state of server.js: `currentPoll` (line 19),
`previousPolls` (line 20), `endTimer` (line 46, modelled as an armed flag)
and `teacherSocketId` (line 47). -/
structure ServerState where
  currentPoll : Option Poll
  previousPolls : List Results
  endTimer : Bool
  teacherSocketId : Option String
deriving Repr, DecidableEq

/-- The state at process start: no poll, empty history, no timer, no teacher. -/
def initialState : ServerState :=
  { currentPoll := none, previousPolls := [], endTimer := false, teacherSocketId := none }

/-- An acknowledgment payload passed to a handler callback. -/
structure Ack where
  success : Bool
  message : Option String := none
  poll : Option Results := none
deriving Repr, DecidableEq

/-- `finishCurrentPoll` (server.js lines 126-139): no-op when no poll; else
mark inactive, unshift the snapshot onto history, pop the oldest entry when
the length exceeds 50, discard the poll and clear the timer. The `reason`
argument only affects the broadcast payload, which is not modelled. -/
def finishCurrentPoll (st : ServerState) : ServerState :=
  match st.currentPoll with
  | none => st
  | some poll =>
    let closed : Poll := { poll with active := false }
    let hist := computeResults closed :: st.previousPolls
    let hist := if hist.length > 50 then hist.dropLast else hist
    { st with currentPoll := none, previousPolls := hist, endTimer := false }

/-- The `create-poll` handler (server.js lines 59-77) for a well-formed
payload: fail when an active poll exists, else install a fresh poll and arm
the timer. -/
def handleCreatePoll (st : ServerState) (question : String)
    (optionTexts : List String) (duration : Option Nat)
    (freshId : String) (now : Nat) : ServerState × Ack :=
  let isActive := match st.currentPoll with
    | some p => p.active
    | none => false
  if isActive then
    (st, { success := false, message := some "A poll is already active." })
  else
    let poll := createPoll question optionTexts duration freshId now
    ({ st with currentPoll := some poll, endTimer := true },
     { success := true, poll := some (computeResults poll) })

/-- `opt.votes += 1` on the option found by
`options.find(o => o.id === optionId)` (server.js lines 88, 92): increment
the first option whose id matches. -/
def incrementVote : List PollOption → String → List PollOption
  | [], _ => []
  | o :: rest, optionId =>
    if o.id = optionId then { o with votes := o.votes + 1 } :: rest
    else o :: incrementVote rest optionId

/-- The `vote` handler (server.js lines 79-99): checks, in order, that an
active poll with the given id exists, that the student has not already
voted, and that the option id exists; then counts the vote and records the
submission. -/
def handleVote (st : ServerState) (pollId optionId studentId : String) :
    ServerState × Ack :=
  match st.currentPoll with
  | none => (st, { success := false, message := some "No active poll" })
  | some poll =>
    if poll.active = false ∨ poll.id ≠ pollId then
      (st, { success := false, message := some "No active poll" })
    else if studentId ∈ poll.submissions then
      (st, { success := false, message := some "Already voted" })
    else
      match poll.options.find? (fun o => o.id = optionId) with
      | none => (st, { success := false, message := some "Invalid option" })
      | some _ =>
        let newPoll : Poll :=
          { poll with
            options := incrementVote poll.options optionId
            submissions := studentId :: poll.submissions }
        ({ st with currentPoll := some newPoll }, { success := true })

/-- The `end-poll-now` handler (server.js lines 101-106). -/
def handleEndPollNow (st : ServerState) : ServerState × Ack :=
  match st.currentPoll with
  | none => (st, { success := false, message := some "No active poll" })
  | some poll =>
    if poll.active then (finishCurrentPoll st, { success := true })
    else (st, { success := false, message := some "No active poll" })

/-- `register-teacher` (server.js lines 55-57): unconditional overwrite. -/
def handleRegisterTeacher (st : ServerState) (socketId : String) : ServerState :=
  { st with teacherSocketId := some socketId }

/-- The `disconnect` handler (server.js lines 120-123): clear the teacher
slot only when it holds exactly this socket's id. -/
def handleDisconnect (st : ServerState) (socketId : String) : ServerState :=
  if st.teacherSocketId = some socketId then { st with teacherSocketId := none }
  else st

/-- `remainingSeconds()` (server.js lines 141-145): 0 with no poll, else
`Math.max(0, Math.ceil(duration - (now - startedAt)/1000))`, written over
integers as a ceiling division of `duration*1000 - (now - startedAt)` by
1000 (`⌈a/b⌉ = -((-a).fdiv b)` for `b > 0`). -/
def remainingSeconds (st : ServerState) (now : Nat) : Int :=
  match st.currentPoll with
  | none => 0
  | some poll =>
    let diffMs : Int := (poll.duration : Int) * 1000 - ((now : Int) - (poll.startedAt : Int))
    max 0 (-(Int.fdiv (-diffMs) 1000))

/-- The callback payload of `get-current-poll`: either `{poll: null}` or
`{poll, active, remaining}` (server.js lines 115-118). -/
structure QueryAck where
  poll : Option Results
  active : Option Bool
  remaining : Option Int
deriving Repr, DecidableEq

/-- The `get-current-poll` handler (server.js lines 115-118); it reads the
state and never writes it. -/
def handleGetCurrentPoll (st : ServerState) (now : Nat) : ServerState × QueryAck :=
  match st.currentPoll with
  | none => (st, { poll := none, active := none, remaining := none })
  | some poll =>
    (st, { poll := some (computeResults poll)
           active := some poll.active
           remaining := some (remainingSeconds st now) })

/-- The create-poll payload as received on the wire: `options` is `none`
when the field is missing or is not an array. -/
structure RawPayload where
  question : String
  options : Option (List String)
  duration : Option Nat
deriving Repr, DecidableEq

/-- `createPoll(payload)` applied to a raw payload: `payload.options.map`
(server.js line 24) throws a TypeError when `options` is missing or not an
array, modelled as `Except.error`; otherwise it builds the poll. -/
def createPollRaw (payload : RawPayload) (freshId : String) (now : Nat) :
    Except String Poll :=
  match payload.options with
  | none => .error "TypeError: payload.options.map is not a function"
  | some optionTexts =>
    .ok (createPoll payload.question optionTexts payload.duration freshId now)

/-- The `create-poll` handler (server.js lines 59-77) on a raw payload: the
active-poll check precedes `createPoll(payload)`, so with no active poll a
malformed payload makes the handler propagate the TypeError
(`Except.error`) before any acknowledgment callback is invoked. -/
def handleCreatePollRaw (st : ServerState) (payload : RawPayload)
    (freshId : String) (now : Nat) : Except String (ServerState × Ack) :=
  let isActive := match st.currentPoll with
    | some p => p.active
    | none => false
  if isActive then
    .ok (st, { success := false, message := some "A poll is already active." })
  else
    match createPollRaw payload freshId now with
    | .error e => .error e
    | .ok poll =>
      .ok ({ st with currentPoll := some poll, endTimer := true },
           { success := true, poll := some (computeResults poll) })

/-- One observable transition of the server: any inbound event handler, or
the armed timeout firing (`setTimeout` callback, server.js lines 72-74). -/
inductive Step : ServerState → ServerState → Prop where
  | create (st : ServerState) (question : String) (optionTexts : List String)
      (duration : Option Nat) (freshId : String) (now : Nat) :
      Step st (handleCreatePoll st question optionTexts duration freshId now).1
  | vote (st : ServerState) (pollId optionId studentId : String) :
      Step st (handleVote st pollId optionId studentId).1
  | endNow (st : ServerState) : Step st (handleEndPollNow st).1
  | timerFire (st : ServerState) (h : st.endTimer = true) :
      Step st (finishCurrentPoll st)
  | register (st : ServerState) (socketId : String) :
      Step st (handleRegisterTeacher st socketId)
  | disconnect (st : ServerState) (socketId : String) :
      Step st (handleDisconnect st socketId)

/-- States reachable from process start through the event handlers. -/
inductive Reachable : ServerState → Prop where
  | init : Reachable initialState
  | step {st st' : ServerState} : Reachable st → Step st st' → Reachable st'

/-! ### Invariants -/

/-- The combined invariant maintained by all handlers: any stored poll is
active, its vote total equals the number of recorded submissions, the
submission list holds no duplicates, and the history never exceeds 50
entries. -/
def StateInv (st : ServerState) : Prop :=
  (∀ p, st.currentPoll = some p →
     p.active = true ∧ sumVotes p.options = p.submissions.length ∧ p.submissions.Nodup) ∧
  st.previousPolls.length ≤ 50

theorem sumVotes_createPoll (question : String) (optionTexts : List String)
    (duration : Option Nat) (freshId : String) (now : Nat) :
    sumVotes (createPoll question optionTexts duration freshId now).options = 0 := by
  simp only [createPoll, sumVotes, List.map_map]
  apply List.sum_eq_zero
  intro x hx
  simp only [List.mem_map, Function.comp] at hx
  obtain ⟨p, -, hp⟩ := hx
  exact hp.symm

theorem sumVotes_incrementVote (opts : List PollOption) (optionId : String)
    (h : (opts.find? (fun o => o.id = optionId)).isSome) :
    sumVotes (incrementVote opts optionId) = sumVotes opts + 1 := by
  induction opts with
  | nil => simp [List.find?] at h
  | cons o rest ih =>
    by_cases hid : o.id = optionId
    · simp [incrementVote, hid, sumVotes]
      ring
    · have h' : (rest.find? (fun o => o.id = optionId)).isSome := by
        rw [List.find?_cons] at h
        simpa [hid] using h
      have := ih h'
      simp [incrementVote, hid, sumVotes] at this ⊢
      omega

theorem stateInv_initial : StateInv initialState := by
  constructor
  · intro p hp
    simp [initialState] at hp
  · simp [initialState]

theorem stateInv_finish (st : ServerState) (h : StateInv st) :
    StateInv (finishCurrentPoll st) := by
  obtain ⟨hpoll, hhist⟩ := h
  unfold finishCurrentPoll
  cases hcp : st.currentPoll with
  | none => exact ⟨hpoll, hhist⟩
  | some poll =>
    constructor
    · intro p hp
      simp at hp
    · simp only
      split
      · next hlen =>
        rw [List.length_dropLast]
        simp at hlen ⊢
        omega
      · next hlen =>
        simp at hlen ⊢
        omega

theorem createPoll_inv (question : String) (optionTexts : List String)
    (duration : Option Nat) (freshId : String) (now : Nat) :
    (createPoll question optionTexts duration freshId now).active = true ∧
    sumVotes (createPoll question optionTexts duration freshId now).options =
      (createPoll question optionTexts duration freshId now).submissions.length ∧
    (createPoll question optionTexts duration freshId now).submissions.Nodup := by
  refine ⟨rfl, ?_, by simp [createPoll]⟩
  rw [sumVotes_createPoll]
  simp [createPoll]

theorem stateInv_create (st : ServerState) (h : StateInv st)
    (question : String) (optionTexts : List String) (duration : Option Nat)
    (freshId : String) (now : Nat) :
    StateInv (handleCreatePoll st question optionTexts duration freshId now).1 := by
  obtain ⟨hpoll, hhist⟩ := h
  cases hcp : st.currentPoll with
  | none =>
    have hst : (handleCreatePoll st question optionTexts duration freshId now).1 =
        { st with currentPoll := some (createPoll question optionTexts duration freshId now),
                  endTimer := true } := by
      simp [handleCreatePoll, hcp]
    rw [hst]
    refine ⟨?_, hhist⟩
    intro p hp
    simp at hp
    subst hp
    exact createPoll_inv question optionTexts duration freshId now
  | some q =>
    by_cases hact : q.active = true
    · have hst : (handleCreatePoll st question optionTexts duration freshId now).1 = st := by
        simp [handleCreatePoll, hcp, hact]
      rw [hst]
      exact ⟨hpoll, hhist⟩
    · have hst : (handleCreatePoll st question optionTexts duration freshId now).1 =
          { st with currentPoll := some (createPoll question optionTexts duration freshId now),
                    endTimer := true } := by
        simp [handleCreatePoll, hcp, hact]
      rw [hst]
      refine ⟨?_, hhist⟩
      intro p hp
      simp at hp
      subst hp
      exact createPoll_inv question optionTexts duration freshId now

theorem stateInv_vote (st : ServerState) (h : StateInv st)
    (pollId optionId studentId : String) :
    StateInv (handleVote st pollId optionId studentId).1 := by
  obtain ⟨hpoll, hhist⟩ := h
  unfold handleVote
  cases hcp : st.currentPoll with
  | none => exact ⟨by simp [hcp], hhist⟩
  | some poll =>
    simp only
    split
    · exact ⟨by simpa [hcp] using hpoll, hhist⟩
    · split
      · exact ⟨by simpa [hcp] using hpoll, hhist⟩
      · next hmem =>
        cases hfind : poll.options.find? (fun o => o.id = optionId) with
        | none => exact ⟨by simpa [hcp] using hpoll, hhist⟩
        | some opt =>
          obtain ⟨hact, hsum, hnd⟩ := hpoll poll hcp
          constructor
          · intro p hp
            simp at hp
            subst hp
            refine ⟨hact, ?_, ?_⟩
            · simp only [List.length_cons]
              rw [sumVotes_incrementVote poll.options optionId (by simp [hfind])]
              omega
            · exact List.nodup_cons.mpr ⟨hmem, hnd⟩
          · exact hhist

theorem stateInv_endNow (st : ServerState) (h : StateInv st) :
    StateInv (handleEndPollNow st).1 := by
  unfold handleEndPollNow
  cases hcp : st.currentPoll with
  | none => exact h
  | some poll =>
    simp only
    split
    · exact stateInv_finish st h
    · exact h

theorem stateInv_step {st st' : ServerState} (h : StateInv st) (hs : Step st st') :
    StateInv st' := by
  cases hs with
  | create question optionTexts duration freshId now =>
    exact stateInv_create st h question optionTexts duration freshId now
  | vote pollId optionId studentId => exact stateInv_vote st h pollId optionId studentId
  | endNow => exact stateInv_endNow st h
  | timerFire ht => exact stateInv_finish st h
  | register socketId => exact ⟨h.1, h.2⟩
  | disconnect socketId =>
    unfold handleDisconnect
    split
    · exact ⟨h.1, h.2⟩
    · exact h

theorem reachable_stateInv {st : ServerState} (h : Reachable st) : StateInv st := by
  induction h with
  | init => exact stateInv_initial
  | step hr hs ih => exact stateInv_step ih hs

/-! ### Claim theorems -/

/-- C1: in every reachable state, the sum of the vote counters over the
active poll's options equals the number of identifiers in its submissions
set, and every further transition (create, vote, manual close, timeout
close; query does not write the state) preserves this equality. -/
theorem votes_eq_submissions (st : ServerState) (h : Reachable st) :
    (∀ p, st.currentPoll = some p → p.active = true →
       sumVotes p.options = p.submissions.length) ∧
    (∀ st', Step st st' → ∀ p, st'.currentPoll = some p → p.active = true →
       sumVotes p.options = p.submissions.length) := by
  have hinv := reachable_stateInv h
  exact ⟨fun p hp _ => (hinv.1 p hp).2.1,
         fun st' hs p hp _ => ((stateInv_step hinv hs).1 p hp).2.1⟩

/-- Witness for C1 at the state reached by one create and one vote. -/
theorem votes_eq_submissions_witness :
    sumVotes [⟨"0", "A", 1⟩, ⟨"1", "B", 0⟩] = ["s1"].length := by
  have hr : Reachable (handleVote
      (handleCreatePoll initialState "Q" ["A", "B"] none "poll1" 0).1
      "poll1" "0" "s1").1 :=
    Reachable.step
      (Reachable.step Reachable.init
        (Step.create initialState "Q" ["A", "B"] none "poll1" 0))
      (Step.vote (handleCreatePoll initialState "Q" ["A", "B"] none "poll1" 0).1
        "poll1" "0" "s1")
  exact (votes_eq_submissions _ hr).1
    ⟨"poll1", "Q", [⟨"0", "A", 1⟩, ⟨"1", "B", 0⟩], 0, 60, true, ["s1"]⟩
    (by decide) rfl

/-- C2: when a poll exists and is active, create-poll fails with the
"A poll is already active." message, as a failure acknowledgment rather
than a thrown error, and the whole state — active poll, history and timer —
is returned unchanged. -/
theorem create_fails_when_active (st : ServerState) (p : Poll)
    (hp : st.currentPoll = some p) (ha : p.active = true)
    (question : String) (optionTexts : List String) (duration : Option Nat)
    (freshId : String) (now : Nat) :
    handleCreatePoll st question optionTexts duration freshId now =
      (st, { success := false, message := some "A poll is already active." }) := by
  simp [handleCreatePoll, hp, ha]

/-- Witness for C2 at a concrete state holding an active poll. -/
theorem create_fails_when_active_witness :
    handleCreatePoll
      { currentPoll := some ⟨"p1", "Q1", [⟨"0", "A", 0⟩], 0, 60, true, []⟩,
        previousPolls := [], endTimer := true, teacherSocketId := none }
      "Q2" ["X"] none "p2" 5 =
      ({ currentPoll := some ⟨"p1", "Q1", [⟨"0", "A", 0⟩], 0, 60, true, []⟩,
         previousPolls := [], endTimer := true, teacherSocketId := none },
       { success := false, message := some "A poll is already active." }) :=
  create_fails_when_active _ _ rfl rfl "Q2" ["X"] none "p2" 5

/-- C9: register-teacher overwrites the single slot unconditionally (last
registrant wins); disconnect clears the slot exactly when it holds that
socket's id, so a stale disconnect never clears a slot re-registered by a
newer connection. The slot is a single `Option String`, so it never holds
more than one value. -/
theorem teacher_slot_semantics (st : ServerState) (c c2 : String) :
    (handleRegisterTeacher st c).teacherSocketId = some c ∧
    (st.teacherSocketId = some c → (handleDisconnect st c).teacherSocketId = none) ∧
    (st.teacherSocketId ≠ some c → handleDisconnect st c = st) ∧
    (c ≠ c2 → (handleDisconnect (handleRegisterTeacher st c2) c).teacherSocketId = some c2) := by
  refine ⟨rfl, fun h => by simp [handleDisconnect, h], fun h => by simp [handleDisconnect, h],
    fun h => ?_⟩
  have hne : (handleRegisterTeacher st c2).teacherSocketId ≠ some c := by
    simp [handleRegisterTeacher]
    exact fun hc => h hc.symm
  simp [handleDisconnect, hne]
  simp [handleRegisterTeacher]

/-- Witness for C9: a stale disconnect of "a" does not clear the slot after
"b" re-registered, and a matching disconnect does clear it. -/
theorem teacher_slot_semantics_witness :
    (handleDisconnect (handleRegisterTeacher initialState "b") "a").teacherSocketId = some "b" ∧
    (handleDisconnect { initialState with teacherSocketId := some "a" } "a").teacherSocketId
      = none :=
  ⟨(teacher_slot_semantics initialState "a" "b").2.2.2 (by decide),
   (teacher_slot_semantics { initialState with teacherSocketId := some "a" } "a" "b").2.1 rfl⟩

/-- C10: in every reachable state, a stored current poll is active — close
(manual or timeout) discards the poll reference in the same transition as it
clears the active flag, so a non-null inactive poll is never observable. -/
theorem currentPoll_always_active (st : ServerState) (h : Reachable st) :
    ∀ p, st.currentPoll = some p → p.active = true :=
  fun p hp => ((reachable_stateInv h).1 p hp).1

/-- Witness for C10 at the state reached by one create. -/
theorem currentPoll_always_active_witness :
    (Poll.mk "p1" "Q" [⟨"0", "A", 0⟩] 0 60 true []).active = true := by
  have hr : Reachable (handleCreatePoll initialState "Q" ["A"] none "p1" 0).1 :=
    Reachable.step Reachable.init (Step.create initialState "Q" ["A"] none "p1" 0)
  exact currentPoll_always_active _ hr _ (by decide)

/-- C3: the vote handler checks its preconditions in order with the first
failure winning: with no active poll matching `pollId` it fails with
"No active poll"; otherwise a voter already in submissions fails with
"Already voted"; otherwise an option id matching no option fails with
"Invalid option"; each failure returns the state unchanged. -/
theorem admitVote_check_order (st : ServerState) (pollId optionId studentId : String) :
    ((∀ p, st.currentPoll = some p → p.active = true → p.id = pollId → False) →
       handleVote st pollId optionId studentId =
         (st, { success := false, message := some "No active poll" })) ∧
    (∀ p, st.currentPoll = some p → p.active = true → p.id = pollId →
       studentId ∈ p.submissions →
       handleVote st pollId optionId studentId =
         (st, { success := false, message := some "Already voted" })) ∧
    (∀ p, st.currentPoll = some p → p.active = true → p.id = pollId →
       studentId ∉ p.submissions →
       p.options.find? (fun o => o.id = optionId) = none →
       handleVote st pollId optionId studentId =
         (st, { success := false, message := some "Invalid option" })) := by
  refine ⟨?_, ?_, ?_⟩
  · intro hno
    cases hcp : st.currentPoll with
    | none => simp [handleVote, hcp]
    | some p =>
      have hcond : p.active = false ∨ p.id ≠ pollId := by
        by_cases ha : p.active = true
        · exact Or.inr (fun hid => hno p hcp ha hid)
        · exact Or.inl (by cases hb : p.active <;> simp_all)
      simp only [handleVote, hcp]
      rw [if_pos hcond]
  · intro p hcp ha hid hmem
    have hcond : ¬(p.active = false ∨ p.id ≠ pollId) := by simp [ha, hid]
    simp only [handleVote, hcp]
    rw [if_neg hcond, if_pos hmem]
  · intro p hcp ha hid hmem hfind
    have hcond : ¬(p.active = false ∨ p.id ≠ pollId) := by simp [ha, hid]
    simp only [handleVote, hcp]
    rw [if_neg hcond, if_neg hmem, hfind]

/-- Witness for C3: each failure branch at a concrete state. -/
theorem admitVote_check_order_witness :
    handleVote initialState "p1" "0" "s2" =
      (initialState, { success := false, message := some "No active poll" }) ∧
    handleVote
      { currentPoll := some ⟨"p1", "Q", [⟨"0", "A", 1⟩], 0, 60, true, ["s1"]⟩,
        previousPolls := [], endTimer := true, teacherSocketId := none }
      "p1" "0" "s1" =
      ({ currentPoll := some ⟨"p1", "Q", [⟨"0", "A", 1⟩], 0, 60, true, ["s1"]⟩,
         previousPolls := [], endTimer := true, teacherSocketId := none },
       { success := false, message := some "Already voted" }) ∧
    handleVote
      { currentPoll := some ⟨"p1", "Q", [⟨"0", "A", 1⟩], 0, 60, true, ["s1"]⟩,
        previousPolls := [], endTimer := true, teacherSocketId := none }
      "p1" "9" "s2" =
      ({ currentPoll := some ⟨"p1", "Q", [⟨"0", "A", 1⟩], 0, 60, true, ["s1"]⟩,
         previousPolls := [], endTimer := true, teacherSocketId := none },
       { success := false, message := some "Invalid option" }) :=
  ⟨(admitVote_check_order initialState "p1" "0" "s2").1
     (by intro p hp; simp [initialState] at hp),
   (admitVote_check_order _ "p1" "0" "s1").2.1 _ rfl rfl rfl (by decide),
   (admitVote_check_order _ "p1" "9" "s2").2.2 _ rfl rfl rfl (by decide) (by decide)⟩

/-- C4: when a vote by `studentId` succeeds, a second vote by the same
student against the same poll fails with "Already voted" and leaves the
state exactly as after the first call, which counted exactly one vote and
recorded the voter once. -/
theorem admitVote_dedup (st st' : ServerState)
    (pollId oid1 oid2 studentId : String)
    (h : handleVote st pollId oid1 studentId = (st', { success := true })) :
    handleVote st' pollId oid2 studentId =
      (st', { success := false, message := some "Already voted" }) ∧
    ∃ p p', st.currentPoll = some p ∧ st'.currentPoll = some p' ∧
      sumVotes p'.options = sumVotes p.options + 1 ∧
      p'.submissions = studentId :: p.submissions := by
  cases hcp : st.currentPoll with
  | none => simp [handleVote, hcp] at h
  | some poll =>
    by_cases hcond : poll.active = false ∨ poll.id ≠ pollId
    · simp only [handleVote, hcp] at h
      rw [if_pos hcond] at h
      simp at h
    · by_cases hmem : studentId ∈ poll.submissions
      · simp only [handleVote, hcp] at h
        rw [if_neg hcond, if_pos hmem] at h
        simp at h
      · cases hfind : poll.options.find? (fun o => o.id = oid1) with
        | none =>
          simp only [handleVote, hcp] at h
          rw [if_neg hcond, if_neg hmem, hfind] at h
          simp at h
        | some opt =>
          simp only [handleVote, hcp] at h
          rw [if_neg hcond, if_neg hmem, hfind] at h
          push_neg at hcond
          obtain ⟨hactne, hid⟩ := hcond
          have hact : poll.active = true := by
            cases hb : poll.active
            · exact absurd hb hactne
            · rfl
          have h2 : ({ st with currentPoll := some ({ poll with
                  options := incrementVote poll.options oid1,
                  submissions := studentId :: poll.submissions }) },
              ({ success := true } : Ack)) = (st', { success := true }) := h
          have hst' : st' = { st with currentPoll := some ({ poll with
                  options := incrementVote poll.options oid1,
                  submissions := studentId :: poll.submissions }) } :=
            (congrArg Prod.fst h2).symm
          subst hst'
          constructor
          · simp [handleVote, hact, hid]
          · exact ⟨poll, _, rfl, rfl,
              by rw [sumVotes_incrementVote _ _ (by simp [hfind])], rfl⟩

/-- Witness for C4: a concrete first vote succeeds, the repeat is refused
and the state is unchanged from the state after the first vote. -/
theorem admitVote_dedup_witness :
    handleVote
      { currentPoll := some ⟨"p1", "Q", [⟨"0", "A", 1⟩, ⟨"1", "B", 0⟩], 0, 60, true, ["s1"]⟩,
        previousPolls := [], endTimer := true, teacherSocketId := none }
      "p1" "1" "s1" =
      ({ currentPoll := some ⟨"p1", "Q", [⟨"0", "A", 1⟩, ⟨"1", "B", 0⟩], 0, 60, true, ["s1"]⟩,
         previousPolls := [], endTimer := true, teacherSocketId := none },
       { success := false, message := some "Already voted" }) ∧
    ∃ p p',
      ({ currentPoll := some ⟨"p1", "Q", [⟨"0", "A", 0⟩, ⟨"1", "B", 0⟩], 0, 60, true, []⟩,
         previousPolls := [], endTimer := true,
         teacherSocketId := none } : ServerState).currentPoll = some p ∧
      ({ currentPoll := some ⟨"p1", "Q", [⟨"0", "A", 1⟩, ⟨"1", "B", 0⟩], 0, 60, true, ["s1"]⟩,
         previousPolls := [], endTimer := true,
         teacherSocketId := none } : ServerState).currentPoll = some p' ∧
      sumVotes p'.options = sumVotes p.options + 1 ∧
      p'.submissions = "s1" :: p.submissions :=
  admitVote_dedup
    { currentPoll := some ⟨"p1", "Q", [⟨"0", "A", 0⟩, ⟨"1", "B", 0⟩], 0, 60, true, []⟩,
      previousPolls := [], endTimer := true, teacherSocketId := none }
    _ "p1" "0" "1" "s1" (by decide)

theorem jsRound_eq_round (num den : ℕ) (h : 0 < den) :
    (jsRound num den : ℤ) = round ((num : ℚ) / (den : ℚ)) := by
  rw [round_eq, jsRound]
  have h2 : ((num : ℚ) / (den : ℚ) + 1 / 2) =
      ((2 * num + den : ℕ) : ℚ) / ((2 * den : ℕ) : ℚ) := by
    have hd : (den : ℚ) ≠ 0 := by positivity
    push_cast
    field_simp
    ring
  rw [h2, Rat.floor_natCast_div_natCast]
  exact Int.natCast_div _ _

/-- C5: the aggregator's `total` is the sum of the option vote counters;
each snapshot option carries its poll option's id, text and votes, and a
`pct` equal to `round(votes/total*100)` (round half up over ℚ) when
`total > 0` and to 0 when `total = 0`; in particular a freshly created poll
yields `total = 0` and `pct = 0` everywhere with no division error. -/
theorem computeResults_correct (poll : Poll) :
    (computeResults poll).total = sumVotes poll.options ∧
    List.Forall₂ (fun (o : PollOption) (ro : ResultOption) =>
        ro.id = o.id ∧ ro.text = o.text ∧ ro.votes = o.votes ∧
        (ro.pct : ℤ) = (if sumVotes poll.options = 0 then 0
          else round ((o.votes : ℚ) / (sumVotes poll.options : ℚ) * 100)))
      poll.options (computeResults poll).options ∧
    (∀ question optionTexts duration freshId now,
      (computeResults (createPoll question optionTexts duration freshId now)).total = 0 ∧
      ∀ ro ∈ (computeResults (createPoll question optionTexts duration freshId now)).options,
        ro.pct = 0) := by
  refine ⟨rfl, ?_, ?_⟩
  · simp only [computeResults]
    rw [List.forall₂_map_right_iff, List.forall₂_same]
    intro o ho
    refine ⟨rfl, rfl, rfl, ?_⟩
    by_cases h0 : sumVotes poll.options = 0
    · simp [h0]
    · have hpos : 0 < sumVotes poll.options := Nat.pos_of_ne_zero h0
      simp only [h0, if_false]
      rw [jsRound_eq_round _ _ hpos]
      congr 1
      push_cast
      ring
  · intro question optionTexts duration freshId now
    have h0 := sumVotes_createPoll question optionTexts duration freshId now
    constructor
    · exact h0
    · intro ro hro
      simp only [computeResults, h0, if_pos, List.mem_map] at hro
      obtain ⟨o, -, rfl⟩ := hro
      rfl

/-- Witness for C5 at a poll with votes 3, 1, 0: total 4, and a freshly
created poll aggregates to total 0. -/
theorem computeResults_correct_witness :
    sumVotes [⟨"0", "A", 3⟩, ⟨"1", "B", 1⟩, ⟨"2", "C", 0⟩] = 4 ∧
    (computeResults
      (⟨"p", "Q", [⟨"0", "A", 3⟩, ⟨"1", "B", 1⟩, ⟨"2", "C", 0⟩],
        0, 60, true, ["a", "b", "c", "d"]⟩ : Poll)).total
      = sumVotes [⟨"0", "A", 3⟩, ⟨"1", "B", 1⟩, ⟨"2", "C", 0⟩] ∧
    (computeResults (createPoll "Q" ["A", "B"] none "p" 0)).total = 0 :=
  ⟨by decide,
   (computeResults_correct _).1,
   ((computeResults_correct
      (⟨"p", "Q", [⟨"0", "A", 3⟩, ⟨"1", "B", 1⟩, ⟨"2", "C", 0⟩],
        0, 60, true, ["a", "b", "c", "d"]⟩ : Poll)).2.2 "Q" ["A", "B"] none "p" 0).1⟩

/-- C6: in every reachable state the history holds at most 50 entries, and
closing the current poll makes the history the snapshot of the closed poll
prepended to the old history, truncated to 50 entries — so on overflow
exactly the oldest entry is evicted and the order of the rest is kept. -/
theorem history_cap (st : ServerState) (h : Reachable st) :
    st.previousPolls.length ≤ 50 ∧
    ∀ p, st.currentPoll = some p →
      (finishCurrentPoll st).previousPolls =
        (computeResults { p with active := false } :: st.previousPolls).take 50 := by
  have hinv := reachable_stateInv h
  refine ⟨hinv.2, ?_⟩
  intro p hp
  unfold finishCurrentPoll
  rw [hp]
  simp only
  by_cases hlen : (computeResults { p with active := false } :: st.previousPolls).length > 50
  · rw [if_pos hlen, List.dropLast_eq_take]
    congr 1
    have h50 := hinv.2
    simp only [List.length_cons] at hlen ⊢
    omega
  · rw [if_neg hlen]
    exact (List.take_of_length_le (by omega)).symm

/-- Witness for C6 at the reachable state holding one fresh poll and an
empty history. -/
theorem history_cap_witness :
    ([] : List Results).length ≤ 50 ∧
    (finishCurrentPoll (handleCreatePoll initialState "Q" ["A"] none "p1" 0).1).previousPolls =
      (computeResults (⟨"p1", "Q", [⟨"0", "A", 0⟩], 0, 60, false, []⟩ : Poll) :: []).take 50 := by
  have hr : Reachable (handleCreatePoll initialState "Q" ["A"] none "p1" 0).1 :=
    Reachable.step Reachable.init (Step.create initialState "Q" ["A"] none "p1" 0)
  have hth := history_cap _ hr
  exact ⟨hth.1, hth.2 ⟨"p1", "Q", [⟨"0", "A", 0⟩], 0, 60, true, []⟩ (by decide)⟩

theorem neg_fdiv_neg_eq_ceil (a : ℤ) :
    (-(Int.fdiv (-a) 1000) : ℤ) = ⌈(a : ℚ) / 1000⌉ := by
  have h1 : ⌈(a : ℚ) / 1000⌉ = -⌊-((a : ℚ) / 1000)⌋ := by
    rw [← Int.ceil_neg, neg_neg]
  rw [h1]
  congr 1
  have h2 : -((a : ℚ) / 1000) = ((-a : ℤ) : ℚ) / ((1000 : ℕ) : ℚ) := by
    push_cast
    ring
  rw [h2, Rat.floor_intCast_div_natCast, Int.fdiv_eq_ediv _ (by norm_num)]
  rfl

/-- C7: the query handler returns the state unchanged; with no poll it
acknowledges `{poll: null}`; with a stored poll (always active in reachable
states) it returns the current snapshot, the active flag, and a remaining
time equal to `max(0, ceil(duration - elapsedSeconds))`. -/
theorem query_readonly_correct (st : ServerState) (now : Nat) (h : Reachable st) :
    (handleGetCurrentPoll st now).1 = st ∧
    (st.currentPoll = none →
      (handleGetCurrentPoll st now).2 = ⟨none, none, none⟩) ∧
    (∀ p, st.currentPoll = some p →
      p.active = true ∧
      (handleGetCurrentPoll st now).2 =
        ⟨some (computeResults p), some true, some (remainingSeconds st now)⟩ ∧
      remainingSeconds st now =
        max 0 ⌈(p.duration : ℚ) - ((now : ℚ) - (p.startedAt : ℚ)) / 1000⌉) := by
  have hinv := reachable_stateInv h
  refine ⟨?_, ?_, ?_⟩
  · cases hcp : st.currentPoll with
    | none => simp [handleGetCurrentPoll, hcp]
    | some p => simp [handleGetCurrentPoll, hcp]
  · intro h0
    simp [handleGetCurrentPoll, h0]
  · intro p hp
    have hact := (hinv.1 p hp).1
    refine ⟨hact, by simp [handleGetCurrentPoll, hp, hact], ?_⟩
    unfold remainingSeconds
    rw [hp]
    simp only
    rw [neg_fdiv_neg_eq_ceil]
    congr 1
    congr 1
    push_cast
    ring

/-- Witness for C7: thirty seconds into a poll of duration 60, the query is
read-only and reports 30 remaining seconds. -/
theorem query_readonly_correct_witness :
    (handleGetCurrentPoll (handleCreatePoll initialState "Q" ["A"] none "p1" 0).1 30000).1 =
      (handleCreatePoll initialState "Q" ["A"] none "p1" 0).1 ∧
    remainingSeconds (handleCreatePoll initialState "Q" ["A"] none "p1" 0).1 30000 =
      max 0 ⌈((60 : Nat) : ℚ) - (((30000 : Nat) : ℚ) - ((0 : Nat) : ℚ)) / 1000⌉ ∧
    remainingSeconds (handleCreatePoll initialState "Q" ["A"] none "p1" 0).1 30000 = 30 := by
  have hr : Reachable (handleCreatePoll initialState "Q" ["A"] none "p1" 0).1 :=
    Reachable.step Reachable.init (Step.create initialState "Q" ["A"] none "p1" 0)
  have hth := query_readonly_correct (handleCreatePoll initialState "Q" ["A"] none "p1" 0).1 30000 hr
  exact ⟨hth.1,
    (hth.2.2 ⟨"p1", "Q", [⟨"0", "A", 0⟩], 0, 60, true, []⟩ (by decide)).2.2,
    by decide⟩

/-- C8 as the code behaves: with no active poll, a create-poll payload whose
`options` field is missing or not an array makes the handler throw a
TypeError out of the handler (no acknowledgment callback is invoked and no
validation-error ack exists in the code), instead of failing closed. -/
theorem create_malformed_throws :
    handleCreatePollRaw initialState ⟨"Q", none, none⟩ "id1" 0 =
      Except.error "TypeError: payload.options.map is not a function" := rfl

theorem handleCreatePollRaw_wellFormed (st : ServerState) (question : String)
    (optionTexts : List String) (duration : Option Nat)
    (freshId : String) (now : Nat) :
    handleCreatePollRaw st ⟨question, some optionTexts, duration⟩ freshId now =
      .ok (handleCreatePoll st question optionTexts duration freshId now) := by
  unfold handleCreatePollRaw handleCreatePoll createPollRaw
  cases st.currentPoll with
  | none => rfl
  | some p => by_cases hp : p.active <;> simp [hp]
